import Mathlib

/-!
Shallow embedding of the vexen-auth token-lifecycle core.

The embedding follows the Python sources:
  * `vexen_auth/infraestructure/security/jwt_handler.py`
  * `vexen_auth/infraestructure/security/password_hasher.py`
  * `vexen_auth/domain/entity/auth_token.py`
  * `vexen_auth/infraestructure/output/cache/redis/redis_session_cache.py`
  * `vexen_auth/infraestructure/output/persistence/sqlalchemy/repositories/token_repository.py`
  * `vexen_auth/infraestructure/provider/local_auth_provider.py`
  * `vexen_auth/infraestructure/provider/openid_provider.py`

Modelling conventions:
  * Time is measured in integer seconds on a single global timeline.
    `datetime.utcnow()` at instant `now` reads `now`; `datetime.now()` reads
    `now + skew`, where `skew : Int` is the (fixed) offset of the process-local
    clock relative to UTC.  The Python code mixes both clock functions, so the
    distinction is kept explicitly.
  * A JWT produced by `jwt.encode(payload, secret)` is modelled by the
    constructor `Token.signed payload secret`: encoding is deterministic and
    injective in `(payload, secret)`, and non-JWT strings are `Token.malformed`.
  * `hashlib.sha256(...).hexdigest()` is a deterministic injective digest; it is
    modelled collision-free by identifying a hash with the token it digests.
  * bcrypt hashing is modelled by the idealised `PasswordHash.bcrypt plain`
    with `checkpw` as equality of plaintexts.
  * Redis keys written with `setex(key, ttl, v)` are pairs `(v, expiry)` with
    `expiry = now + ttl`; a key is visible while `now < expiry`, and the Redis
    `TTL` command returns the remaining seconds, or `-2` for an absent or
    expired key.  The five key namespaces used by `RedisSessionCache`
    (`access_token:`, `refresh_token:`, `revoked:`, `user_session:`,
    `user_tokens:`) have pairwise distinct prefixes, so they are modelled as
    separate typed maps.
  * Python exceptions are only relevant for `OpenIDProvider.authenticate`
    (which raises `NotImplementedError`); that operation returns an explicit
    `PyResult.raised`.  All other modelled operations are total.
-/

/-- Generic finite-map update used for every keyed store in the model. -/
def mapUpd {κ ν : Type} [DecidableEq κ] (m : κ → Option ν) (k : κ) (v : Option ν) :
    κ → Option ν :=
  fun x => if x = k then v else m x

@[simp] theorem mapUpd_same {κ ν : Type} [DecidableEq κ] (m : κ → Option ν) (k : κ)
    (v : Option ν) : mapUpd m k v k = v := by
  simp [mapUpd]

@[simp] theorem mapUpd_other {κ ν : Type} [DecidableEq κ] (m : κ → Option ν) (k x : κ)
    (v : Option ν) (h : x ≠ k) : mapUpd m k v x = m x := by
  simp [mapUpd, h]

/-- The `type` claim of a token payload (`"access"` or `"refresh"`). -/
inductive TokenType : Type
  | access
  | refresh
deriving DecidableEq

/-- Claim set signed inside a JWT: `{"sub", "email", "exp", "type"}` as built by
`JWTHandler.create_access_token` / `create_refresh_token`. -/
structure TokenPayload where
  sub : String
  email : String
  exp : Int
  type : TokenType
deriving DecidableEq

/-- A raw token string: either a well-formed JWT (`jwt.encode payload secret`) or
any other string. -/
inductive Token : Type
  | signed (payload : TokenPayload) (secret : String)
  | malformed (s : String)
deriving DecidableEq

/-- SHA-256 digests are deterministic and collision-free in the model, so a
token hash is identified with the token it digests. -/
abbrev TokenHash := Token

/-- Idealised bcrypt hash of a plaintext password (`PasswordHasher.hash_password`). -/
inductive PasswordHash : Type
  | bcrypt (plain : String)
deriving DecidableEq

namespace PasswordHasher

/-- Model of `PasswordHasher.hash_password`. -/
def hash_password (password : String) : PasswordHash :=
  .bcrypt password

/-- Model of `PasswordHasher.verify_password` (`bcrypt.checkpw`). -/
def verify_password (plain_password : String) (hashed_password : PasswordHash) : Bool :=
  match hashed_password with
  | .bcrypt q => plain_password = q

end PasswordHasher

/-- Model of `JWTHandler` (`jwt_handler.py`); the configuration is the signing
secret (the algorithm is fixed to HS256). -/
structure JWTHandler where
  secret_key : String
deriving DecidableEq

/-- The `data` dict passed to token creation and cached for access tokens:
`{"sub": ..., "email": ...}`. -/
structure UserData where
  sub : String
  email : String
deriving DecidableEq

namespace JWTHandler

/-- `create_access_token(data, expires_delta)` at UTC instant `now`: embeds
`exp = utcnow + expires_delta` and `type = "access"`, signs with the secret. -/
def create_access_token (h : JWTHandler) (data : UserData) (expires_delta : Int)
    (now : Int) : Token :=
  .signed { sub := data.sub, email := data.email, exp := now + expires_delta,
            type := .access } h.secret_key

/-- `create_refresh_token(data, expires_delta)` at UTC instant `now`. -/
def create_refresh_token (h : JWTHandler) (data : UserData) (expires_delta : Int)
    (now : Int) : Token :=
  .signed { sub := data.sub, email := data.email, exp := now + expires_delta,
            type := .refresh } h.secret_key

/-- `verify_token(token)` at UTC instant `now`.  The Python version returns
`(is_valid, payload | None)` with `is_valid = true` exactly when the payload is
present; the pair is collapsed to an `Option`.  PyJWT rejects a wrong signature
(`InvalidTokenError`) and an expired token (`ExpiredSignatureError`, raised when
`exp <= now`), so a token verifies iff the secret matches and `now < exp`. -/
def verify_token (h : JWTHandler) (now : Int) (t : Token) : Option TokenPayload :=
  match t with
  | .signed p s => if s = h.secret_key ∧ now < p.exp then some p else none
  | .malformed _ => none

/-- `hash_token` — SHA-256, modelled as the identity injection into `TokenHash`. -/
def hash_token (t : Token) : TokenHash := t

end JWTHandler

/-- `AuthToken` entity (`auth_token.py`): durable record of a refresh token,
keyed by the hash of the raw token value. -/
structure AuthToken where
  id : Option Int
  user_id : String
  token : TokenHash
  expires_at : Int
  created_at : Int
  revoked : Bool := false
deriving DecidableEq

namespace AuthToken

/-- `is_expired`: the source compares `datetime.now() >= self.expires_at`, i.e.
it reads the process-local clock, so the argument is the local-clock reading. -/
def is_expired (t : AuthToken) (localNow : Int) : Bool :=
  localNow ≥ t.expires_at

/-- `is_valid`: not expired (per the local clock) and not revoked. -/
def is_valid (t : AuthToken) (localNow : Int) : Bool :=
  !t.is_expired localNow && !t.revoked

end AuthToken

/-- One Redis key written with `setex`: a value and its absolute expiry. -/
structure CacheEntry (α : Type) where
  value : α
  expires_at : Int
deriving DecidableEq

/-- Visible value of a possibly-present Redis key at instant `now` (an expired
key behaves exactly like an absent one). -/
def entryLive {α : Type} (e : Option (CacheEntry α)) (now : Int) : Option α :=
  match e with
  | some e => if now < e.expires_at then some e.value else none
  | none => none

/-- Redis `TTL key` at instant `now`: remaining seconds while the key lives,
`-2` when absent or expired. -/
def entryTTL {α : Type} (e : Option (CacheEntry α)) (now : Int) : Int :=
  match e with
  | some e => if now < e.expires_at then e.expires_at - now else -2
  | none => -2

/-- The `session_data` dict cached by `authenticate`
(`{"user_id", "email", "last_login"}`); `last_login` is a local-clock reading. -/
structure SessionData where
  user_id : String
  email : String
  last_login : Int
deriving DecidableEq

/-- State of `RedisSessionCache` (`redis_session_cache.py`): the five disjoint
key namespaces.  `user_tokens:` keys are Redis sets written with `sadd` (no
expiry), modelled as lists where only membership is meaningful. -/
structure RedisSessionCache where
  access_tokens : TokenHash → Option (CacheEntry UserData)
  refresh_tokens : TokenHash → Option (CacheEntry String)
  revoked_tokens : TokenHash → Option (CacheEntry Unit)
  user_sessions : String → Option (CacheEntry SessionData)
  user_tokens : String → List TokenHash

namespace RedisSessionCache

/-- `is_token_revoked`: existence check on the `revoked:` marker key. -/
def is_token_revoked (c : RedisSessionCache) (token_hash : TokenHash) (now : Int) : Bool :=
  (entryLive (c.revoked_tokens token_hash) now).isSome

/-- `set_access_token(token_hash, user_data, expires_in)`: `setex` the positive
entry, then `sadd` the hash to the user's token set when `user_data.get("sub")`
is truthy (a non-empty string). -/
def set_access_token (c : RedisSessionCache) (token_hash : TokenHash) (user_data : UserData)
    (expires_in now : Int) : RedisSessionCache :=
  let c1 :=
    { c with access_tokens := mapUpd c.access_tokens token_hash (some ⟨user_data, now + expires_in⟩) }
  if user_data.sub ≠ "" then
    { c1 with user_tokens := fun u =>
        if u = user_data.sub then token_hash :: c1.user_tokens u else c1.user_tokens u }
  else c1

/-- `get_access_token`: `None` when the revocation marker exists, otherwise the
live positive entry (the JSON round-trip always succeeds in the model). -/
def get_access_token (c : RedisSessionCache) (token_hash : TokenHash) (now : Int) :
    Option UserData :=
  if c.is_token_revoked token_hash now then none
  else entryLive (c.access_tokens token_hash) now

/-- `revoke_access_token`: read the positive entry's TTL, delete it, and when
the TTL was positive write the `revoked:` marker with that same remaining TTL. -/
def revoke_access_token (c : RedisSessionCache) (token_hash : TokenHash) (now : Int) :
    RedisSessionCache :=
  let ttl := entryTTL (c.access_tokens token_hash) now
  let c1 := { c with access_tokens := mapUpd c.access_tokens token_hash none }
  if ttl > 0 then
    { c1 with revoked_tokens := mapUpd c1.revoked_tokens token_hash (some ⟨(), now + ttl⟩) }
  else c1

/-- `set_refresh_token(token_hash, user_id, expires_in)`: `setex` the positive
entry and unconditionally `sadd` the hash to the user's token set. -/
def set_refresh_token (c : RedisSessionCache) (token_hash : TokenHash) (user_id : String)
    (expires_in now : Int) : RedisSessionCache :=
  { c with
    refresh_tokens := mapUpd c.refresh_tokens token_hash (some ⟨user_id, now + expires_in⟩),
    user_tokens := fun u =>
      if u = user_id then token_hash :: c.user_tokens u else c.user_tokens u }

/-- `get_refresh_token`: `None` when the revocation marker exists, otherwise the
live positive entry's user id. -/
def get_refresh_token (c : RedisSessionCache) (token_hash : TokenHash) (now : Int) :
    Option String :=
  if c.is_token_revoked token_hash now then none
  else entryLive (c.refresh_tokens token_hash) now

/-- `revoke_refresh_token`: same remaining-TTL marker discipline as
`revoke_access_token`, on the `refresh_token:` namespace. -/
def revoke_refresh_token (c : RedisSessionCache) (token_hash : TokenHash) (now : Int) :
    RedisSessionCache :=
  let ttl := entryTTL (c.refresh_tokens token_hash) now
  let c1 := { c with refresh_tokens := mapUpd c.refresh_tokens token_hash none }
  if ttl > 0 then
    { c1 with revoked_tokens := mapUpd c1.revoked_tokens token_hash (some ⟨(), now + ttl⟩) }
  else c1

/-- `set_user_session(user_id, session_data, expires_in)`. -/
def set_user_session (c : RedisSessionCache) (user_id : String) (session_data : SessionData)
    (expires_in now : Int) : RedisSessionCache :=
  { c with user_sessions := mapUpd c.user_sessions user_id (some ⟨session_data, now + expires_in⟩) }

/-- `get_user_session(user_id)`. -/
def get_user_session (c : RedisSessionCache) (user_id : String) (now : Int) :
    Option SessionData :=
  entryLive (c.user_sessions user_id) now

/-- `delete_user_session(user_id)`. -/
def delete_user_session (c : RedisSessionCache) (user_id : String) : RedisSessionCache :=
  { c with user_sessions := mapUpd c.user_sessions user_id none }

end RedisSessionCache

/-- Durable token store: the `auth_tokens` table keyed by the unique hashed
token value (`AuthToken.token` carries a unique constraint). -/
abbrev TokenDB := TokenHash → Option AuthToken

namespace TokenRepository

/-- `save_token` (`token_repository.py`): insert when `id is None`, merge
otherwise; since lookups are by the unique token value, both are an upsert at
the record's `token` key. -/
def save_token (db : TokenDB) (token : AuthToken) : TokenDB :=
  mapUpd db token.token (some token)

/-- `get_token_by_value(token_value)`. -/
def get_token_by_value (db : TokenDB) (token_value : TokenHash) : Option AuthToken :=
  db token_value

/-- `revoke_token(token_value)`: `UPDATE auth_tokens SET revoked = true WHERE
token = value` — a no-op when no row matches, never an error. -/
def revoke_token (db : TokenDB) (token_value : TokenHash) : TokenDB :=
  match db token_value with
  | some t => mapUpd db token_value (some { t with revoked := true })
  | none => db

end TokenRepository

/-- `UserCredential` as consumed by `authenticate` (lookup by email yielding
`user_id` and `password_hash`). -/
structure UserCredential where
  user_id : String
  password_hash : PasswordHash

/-- User profile from the user-information collaborator; `authenticate` reads
only `user_info["email"]`. -/
structure UserInfo where
  email : String

/-- Fixed offset of the process-local clock (`datetime.now()`) relative to UTC
(`datetime.utcnow()`): local reading at UTC instant `now` is `now + skew`. -/
structure Env where
  skew : Int

/-- Configuration of `LocalAuthProvider`: the JWT handler and the two TTLs
(defaults 15 minutes and 30 days, in seconds). -/
structure LocalAuthProvider where
  jwt_handler : JWTHandler
  access_token_expires : Int := 900
  refresh_token_expires : Int := 2592000

/-- Mutable world visible to a `LocalAuthProvider`: the credential and user
repositories, the durable token store, and the optional session cache
(`session_cache = None` models a provider constructed without a cache). -/
structure ProviderState where
  credentials : String → Option UserCredential
  users : String → Option UserInfo
  last_login : String → Option Int
  db : TokenDB
  cache : Option RedisSessionCache

namespace LocalAuthProvider

/-- `authenticate(email, password)` (`local_auth_provider.py` lines 55-127) at
UTC instant `now`: credential lookup, password check, profile lookup, token
issuance, durable save (`expires_at = datetime.utcnow() + refresh_ttl`,
`created_at` defaulting to `datetime.now()`), optional cache population, and
last-login update. -/
def authenticate (P : LocalAuthProvider) (env : Env) (s : ProviderState) (now : Int)
    (email password : String) : Option (Token × Token × String) × ProviderState :=
  match s.credentials email with
  | none => (none, s)
  | some credential =>
    if PasswordHasher.verify_password password credential.password_hash then
      match s.users credential.user_id with
      | none => (none, s)
      | some user_info =>
        let token_data : UserData := { sub := credential.user_id, email := user_info.email }
        let access_token := P.jwt_handler.create_access_token token_data P.access_token_expires now
        let refresh_token := P.jwt_handler.create_refresh_token token_data P.refresh_token_expires now
        let hashed_refresh := JWTHandler.hash_token refresh_token
        let auth_token : AuthToken :=
          { id := none, user_id := credential.user_id, token := hashed_refresh,
            expires_at := now + P.refresh_token_expires, created_at := now + env.skew,
            revoked := false }
        let s1 := { s with db := TokenRepository.save_token s.db auth_token }
        let s2 :=
          match s1.cache with
          | some c =>
            let hashed_access := JWTHandler.hash_token access_token
            let c := c.set_access_token hashed_access token_data P.access_token_expires now
            let c := c.set_refresh_token hashed_refresh credential.user_id P.refresh_token_expires now
            let session_data : SessionData :=
              { user_id := credential.user_id, email := user_info.email, last_login := now + env.skew }
            let c := c.set_user_session credential.user_id session_data P.refresh_token_expires now
            { s1 with cache := some c }
          | none => s1
        let s3 := { s2 with last_login := mapUpd s2.last_login credential.user_id (some (now + env.skew)) }
        (some (access_token, refresh_token, credential.user_id), s3)
    else (none, s)

/-- Store-side validity check shared by both branches of `refresh_token`: the
record must exist and `is_valid()` must hold, where `is_valid` reads the
process-local clock. -/
def dbRefreshValid (env : Env) (db : TokenDB) (hashed_refresh : TokenHash) (now : Int) : Bool :=
  match TokenRepository.get_token_by_value db hashed_refresh with
  | some token => token.is_valid (now + env.skew)
  | none => false

/-- `refresh_token(refresh_token)` (`local_auth_provider.py` lines 129-183):
JWT verification, `type == "refresh"` check, cache-first (falling back to the
store when the cached user id is absent or falsy) or store-only validity
resolution, then issuance of a new access token from the *payload's* claims and
optional cache population of the new access token. -/
def refresh_token (P : LocalAuthProvider) (env : Env) (s : ProviderState) (now : Int)
    (refresh_token : Token) : Option Token × ProviderState :=
  match P.jwt_handler.verify_token now refresh_token with
  | none => (none, s)
  | some payload =>
    if payload.type ≠ .refresh then (none, s)
    else
      let hashed_refresh := JWTHandler.hash_token refresh_token
      let ok : Bool :=
        match s.cache with
        | some c =>
          match c.get_refresh_token hashed_refresh now with
          | some user_id =>
            if user_id = "" then dbRefreshValid env s.db hashed_refresh now else true
          | none => dbRefreshValid env s.db hashed_refresh now
        | none => dbRefreshValid env s.db hashed_refresh now
      if ok then
        let token_data : UserData := { sub := payload.sub, email := payload.email }
        let access_token := P.jwt_handler.create_access_token token_data P.access_token_expires now
        let s1 :=
          match s.cache with
          | some c =>
            let hashed_access := JWTHandler.hash_token access_token
            { s with cache := some (c.set_access_token hashed_access token_data P.access_token_expires now) }
          | none => s
        (some access_token, s1)
      else (none, s)

/-- `revoke_token(refresh_token)` (`local_auth_provider.py` lines 185-209):
revoke in the store, then in the cache when configured; the `try/except` yields
`False` only on an unexpected exception, which the pure model never produces. -/
def revoke_token (P : LocalAuthProvider) (s : ProviderState) (now : Int)
    (refresh_token : Token) : Bool × ProviderState :=
  let hashed_refresh := JWTHandler.hash_token refresh_token
  let s1 := { s with db := TokenRepository.revoke_token s.db hashed_refresh }
  let s2 :=
    match s1.cache with
    | some c => { s1 with cache := some (c.revoke_refresh_token hashed_refresh now) }
    | none => s1
  (true, s2)

end LocalAuthProvider

/-- Result dict of `verify_access_token`: either the full JWT payload or the
cached `{"sub", "email"}` dict (which lacks `exp` and `type`). -/
structure Claims where
  sub : String
  email : Option String
  exp : Option Int
  type : Option TokenType
deriving DecidableEq

/-- Cached `user_data` dict as a `verify_access_token` result. -/
def Claims.ofCached (d : UserData) : Claims :=
  { sub := d.sub, email := some d.email, exp := none, type := none }

/-- Full decoded JWT payload as a `verify_access_token` result. -/
def Claims.ofPayload (p : TokenPayload) : Claims :=
  { sub := p.sub, email := some p.email, exp := some p.exp, type := some p.type }

namespace LocalAuthProvider

/-- Cache fast-path lookup of `verify_access_token`: the cached positive entry
when a cache is configured, `none` otherwise. -/
def cachedAccessLookup (s : ProviderState) (hashed_access : TokenHash) (now : Int) :
    Option UserData :=
  match s.cache with
  | some c => c.get_access_token hashed_access now
  | none => none

/-- `verify_access_token(access_token)` (`local_auth_provider.py` lines
211-252): cache fast path returning the cached dict with no signature
re-verification; otherwise JWT verification, `type == "access"` check, and
opportunistic cache repopulation. -/
def verify_access_token (P : LocalAuthProvider) (s : ProviderState) (now : Int)
    (access_token : Token) : Option Claims × ProviderState :=
  let hashed_access := JWTHandler.hash_token access_token
  match cachedAccessLookup s hashed_access now with
  | some cached_data => (some (Claims.ofCached cached_data), s)
  | none =>
    match P.jwt_handler.verify_token now access_token with
    | none => (none, s)
    | some payload =>
      if payload.type ≠ .access then (none, s)
      else
        let s1 :=
          match s.cache with
          | some c =>
            let token_data : UserData := { sub := payload.sub, email := payload.email }
            { s with cache := some (c.set_access_token hashed_access token_data P.access_token_expires now) }
          | none => s
        (some (Claims.ofPayload payload), s1)

end LocalAuthProvider

/-- Outcome of a Python call that may raise. -/
inductive PyResult (α : Type) : Type
  | ok (val : α)
  | raised (msg : String)
deriving DecidableEq

namespace OpenIDProvider

/-- `OpenIDProvider.authenticate(email, password)` (`openid_provider.py` lines
268-283): unconditionally raises `NotImplementedError`. -/
def authenticate (email password : String) : PyResult (Token × Token × String) :=
  .raised ("Direct email/password authentication not supported for OpenID Connect. "
    ++ "Use authenticate_with_code() with authorization code instead.")

end OpenIDProvider

/-! Concrete fixtures used by closed theorems and witnesses. -/

/-- JWT handler fixture with secret `"s3cr3t"`. -/
def jwtH0 : JWTHandler := ⟨"s3cr3t"⟩

/-- Provider fixture with the default TTLs (900 s access, 2592000 s refresh). -/
def P0 : LocalAuthProvider := { jwt_handler := jwtH0 }

/-- Environment whose local clock agrees with UTC. -/
def env0 : Env := ⟨0⟩

/-- Empty Redis cache. -/
def emptyCache : RedisSessionCache :=
  ⟨fun _ => none, fun _ => none, fun _ => none, fun _ => none, fun _ => []⟩

/-- World with one local user `u1` (`a@x.com` / `p1`), an empty token store, and
the given cache configuration. -/
def s0 (cache : Option RedisSessionCache) : ProviderState :=
  { credentials := fun e => if e = "a@x.com" then some ⟨"u1", .bcrypt "p1"⟩ else none,
    users := fun u => if u = "u1" then some ⟨"a@x.com"⟩ else none,
    last_login := fun _ => none,
    db := fun _ => none,
    cache := cache }

/-- Access token issued by `P0.authenticate` on `s0` at instant 0. -/
def accessTok0 : Token := .signed ⟨"u1", "a@x.com", 900, .access⟩ "s3cr3t"

/-- Refresh token issued by `P0.authenticate` on `s0` at instant 0. -/
def refreshTok0 : Token := .signed ⟨"u1", "a@x.com", 2592000, .refresh⟩ "s3cr3t"

/-- Cache of a provider state, defaulting to the empty cache when none is
configured (only used to observe states known to carry a cache). -/
def cacheOf (s : ProviderState) : RedisSessionCache :=
  s.cache.getD emptyCache

/-- C8: `OpenIDProvider.authenticate` always fails by signalling the
unsupported operation (`NotImplementedError`), never returning a token tuple. -/
theorem C8_openid_authenticate_unsupported (email password : String) :
    OpenIDProvider.authenticate email password =
      PyResult.raised ("Direct email/password authentication not supported for OpenID Connect. "
        ++ "Use authenticate_with_code() with authorization code instead.") := by
  rfl

/-- C9: `LocalAuthProvider.revoke_token` returns `true` for every token in every
state — also for tokens already revoked or never stored; `false` would require
an exception, which no modelled operation produces. -/
theorem C9_revoke_token_idempotent_success (P : LocalAuthProvider) (s : ProviderState)
    (now : Int) (t : Token) :
    (LocalAuthProvider.revoke_token P s now t).1 = true := by
  rfl

/-- C3: `revoke_access_token` and `revoke_refresh_token` each delete the
positive cache entry; when its remaining TTL was positive they write a
revocation marker expiring exactly when the positive entry would have (TTL
equal to the remaining TTL), and when the entry was absent or expired
(TTL ≤ 0, Redis reports `-2`) the marker namespace is left untouched. -/
theorem C3_revoke_marker_remaining_ttl (c : RedisSessionCache) (h : TokenHash) (now : Int) :
    ((c.revoke_access_token h now).access_tokens h = none
      ∧ (0 < entryTTL (c.access_tokens h) now →
          (c.revoke_access_token h now).revoked_tokens h
            = some ⟨(), now + entryTTL (c.access_tokens h) now⟩)
      ∧ (entryTTL (c.access_tokens h) now ≤ 0 →
          (c.revoke_access_token h now).revoked_tokens h = c.revoked_tokens h))
    ∧ ((c.revoke_refresh_token h now).refresh_tokens h = none
      ∧ (0 < entryTTL (c.refresh_tokens h) now →
          (c.revoke_refresh_token h now).revoked_tokens h
            = some ⟨(), now + entryTTL (c.refresh_tokens h) now⟩)
      ∧ (entryTTL (c.refresh_tokens h) now ≤ 0 →
          (c.revoke_refresh_token h now).revoked_tokens h = c.revoked_tokens h)) := by
  constructor
  · by_cases httl : 0 < entryTTL (c.access_tokens h) now
    · simp [RedisSessionCache.revoke_access_token, httl]
    · simp [RedisSessionCache.revoke_access_token, httl]
  · by_cases httl : 0 < entryTTL (c.refresh_tokens h) now
    · simp [RedisSessionCache.revoke_refresh_token, httl]
    · simp [RedisSessionCache.revoke_refresh_token, httl]

/-- C3 witness: the marker discipline evaluated on a cache holding one live
refresh entry for `refreshTok0` and nothing else. -/
theorem C3_revoke_marker_remaining_ttl_witness :
    ((emptyCache.revoke_access_token refreshTok0 5).access_tokens refreshTok0 = none
      ∧ (0 < entryTTL (emptyCache.access_tokens refreshTok0) 5 →
          (emptyCache.revoke_access_token refreshTok0 5).revoked_tokens refreshTok0
            = some ⟨(), 5 + entryTTL (emptyCache.access_tokens refreshTok0) 5⟩)
      ∧ (entryTTL (emptyCache.access_tokens refreshTok0) 5 ≤ 0 →
          (emptyCache.revoke_access_token refreshTok0 5).revoked_tokens refreshTok0
            = emptyCache.revoked_tokens refreshTok0))
    ∧ ((emptyCache.revoke_refresh_token refreshTok0 5).refresh_tokens refreshTok0 = none
      ∧ (0 < entryTTL (emptyCache.refresh_tokens refreshTok0) 5 →
          (emptyCache.revoke_refresh_token refreshTok0 5).revoked_tokens refreshTok0
            = some ⟨(), 5 + entryTTL (emptyCache.refresh_tokens refreshTok0) 5⟩)
      ∧ (entryTTL (emptyCache.refresh_tokens refreshTok0) 5 ≤ 0 →
          (emptyCache.revoke_refresh_token refreshTok0 5).revoked_tokens refreshTok0
            = emptyCache.revoked_tokens refreshTok0)) :=
  C3_revoke_marker_remaining_ttl emptyCache refreshTok0 5

@[simp] theorem set_access_token_access_tokens (c : RedisSessionCache) (h : TokenHash)
    (d : UserData) (ttl now : Int) :
    (c.set_access_token h d ttl now).access_tokens = mapUpd c.access_tokens h (some ⟨d, now + ttl⟩) := by
  unfold RedisSessionCache.set_access_token
  split <;> rfl

@[simp] theorem set_access_token_refresh_tokens (c : RedisSessionCache) (h : TokenHash)
    (d : UserData) (ttl now : Int) :
    (c.set_access_token h d ttl now).refresh_tokens = c.refresh_tokens := by
  unfold RedisSessionCache.set_access_token
  split <;> rfl

@[simp] theorem set_access_token_revoked_tokens (c : RedisSessionCache) (h : TokenHash)
    (d : UserData) (ttl now : Int) :
    (c.set_access_token h d ttl now).revoked_tokens = c.revoked_tokens := by
  unfold RedisSessionCache.set_access_token
  split <;> rfl

@[simp] theorem set_access_token_user_sessions (c : RedisSessionCache) (h : TokenHash)
    (d : UserData) (ttl now : Int) :
    (c.set_access_token h d ttl now).user_sessions = c.user_sessions := by
  unfold RedisSessionCache.set_access_token
  split <;> rfl

/-- C4 counterexample: on the concrete successful `authenticate` run with a
cache configured, the access-token cache entry is written with TTL equal to
`access_token_expires` (900 s), which differs from `refresh_token_expires`
(2592000 s) — so not all three entries carry TTL = refreshTTL as claimed. -/
theorem C4_counterexample_access_ttl :
    (LocalAuthProvider.authenticate P0 env0 (s0 (some emptyCache)) 0 "a@x.com" "p1").1
        = some (accessTok0, refreshTok0, "u1")
    ∧ entryTTL ((cacheOf (LocalAuthProvider.authenticate P0 env0 (s0 (some emptyCache)) 0
          "a@x.com" "p1").2).access_tokens (JWTHandler.hash_token accessTok0)) 0
        = P0.access_token_expires
    ∧ ¬ entryTTL ((cacheOf (LocalAuthProvider.authenticate P0 env0 (s0 (some emptyCache)) 0
          "a@x.com" "p1").2).access_tokens (JWTHandler.hash_token accessTok0)) 0
        = P0.refresh_token_expires := by
  decide

/-- C4 amended: every successful `authenticate` with a cache configured writes
the refresh-token cache entry and the user-session entry with TTL equal to
`refresh_token_expires`, and the access-token cache entry with TTL equal to
`access_token_expires`. -/
theorem C4_cache_population_ttls (P : LocalAuthProvider) (env : Env) (s : ProviderState)
    (now : Int) (email password : String) (a r : Token) (uid : String)
    (c : RedisSessionCache) (hc : s.cache = some c)
    (hs : (LocalAuthProvider.authenticate P env s now email password).1 = some (a, r, uid)) :
    ∃ c', ((LocalAuthProvider.authenticate P env s now email password).2).cache = some c'
      ∧ c'.refresh_tokens (JWTHandler.hash_token r) = some ⟨uid, now + P.refresh_token_expires⟩
      ∧ (∃ sd, c'.user_sessions uid = some ⟨sd, now + P.refresh_token_expires⟩)
      ∧ (∃ d, c'.access_tokens (JWTHandler.hash_token a) = some ⟨d, now + P.access_token_expires⟩) := by
  cases hcred : s.credentials email with
  | none => simp [LocalAuthProvider.authenticate, hcred] at hs
  | some credential =>
    by_cases hpw : PasswordHasher.verify_password password credential.password_hash
    · cases huser : s.users credential.user_id with
      | none => simp [LocalAuthProvider.authenticate, hcred, hpw, huser] at hs
      | some ui =>
        simp [LocalAuthProvider.authenticate, hcred, hpw, huser, hc] at hs ⊢
        obtain ⟨ha, hr, huid⟩ := hs
        subst ha hr huid
        refine ⟨?_, ?_, ?_⟩ <;>
          simp [RedisSessionCache.set_user_session, RedisSessionCache.set_refresh_token,
            JWTHandler.hash_token]
    · simp [LocalAuthProvider.authenticate, hcred, hpw] at hs

/-- C4 witness: the amended cache-population TTLs on the concrete successful
login at instant 0. -/
theorem C4_cache_population_ttls_witness :
    ∃ c', ((LocalAuthProvider.authenticate P0 env0 (s0 (some emptyCache)) 0 "a@x.com" "p1").2).cache = some c'
      ∧ c'.refresh_tokens (JWTHandler.hash_token refreshTok0) = some ⟨"u1", 0 + P0.refresh_token_expires⟩
      ∧ (∃ sd, c'.user_sessions "u1" = some ⟨sd, 0 + P0.refresh_token_expires⟩)
      ∧ (∃ d, c'.access_tokens (JWTHandler.hash_token accessTok0) = some ⟨d, 0 + P0.access_token_expires⟩) :=
  C4_cache_population_ttls P0 env0 (s0 (some emptyCache)) 0 "a@x.com" "p1"
    accessTok0 refreshTok0 "u1" emptyCache rfl (by decide)

/-- Environment for a process whose local clock runs one hour behind UTC. -/
def env7 : Env := ⟨-3600⟩

/-- Refresh JWT whose signature stays valid long past the stored record below. -/
def r7 : Token := .signed ⟨"u1", "a@x.com", 999999, .refresh⟩ "s3cr3t"

/-- Stored `AuthToken` record for `r7` whose `expires_at` (written in UTC) is 50,
already in the past at UTC instant 100, with `revoked = false`. -/
def tok7 : AuthToken := ⟨none, "u1", r7, 50, 0, false⟩

/-- Cache-less world holding only the stored record `tok7`. -/
def s7 : ProviderState :=
  { credentials := fun _ => none, users := fun _ => none, last_login := fun _ => none,
    db := fun h => if h = JWTHandler.hash_token r7 then some tok7 else none,
    cache := none }

/-- C7: at UTC instant 100 the stored record `tok7` is past its UTC
`expires_at` (50) and unrevoked, so the claim demands `refresh_token = none`;
but `AuthToken.is_expired` compares against `datetime.now()` — the process-local
clock — and with the local clock one hour behind UTC the record still counts as
valid, so `refresh_token` issues a new access token. -/
theorem C7_expiry_uses_local_clock :
    ((100 : Int) ≥ tok7.expires_at ∧ tok7.revoked = false)
    ∧ tok7.is_valid 100 = false
    ∧ tok7.is_valid (100 + env7.skew) = true
    ∧ (LocalAuthProvider.refresh_token P0 env7 s7 100 r7).1
        = some (Token.signed ⟨"u1", "a@x.com", 1000, .access⟩ "s3cr3t") := by
  decide

/-- Environment for a process whose local clock runs two hours ahead of UTC. -/
def env2 : Env := ⟨7200⟩

/-- C2: with the local clock two hours ahead of UTC, the same login followed by
the same `refresh_token` call one hour before the refresh token's expiry
succeeds when a cache is configured (live cached entry) but fails when the
cache is disabled, because the store path compares the UTC-written `expires_at`
against `datetime.now()` and wrongly deems the record expired — the cache is
not outcome-transparent. -/
theorem C2_cache_store_divergence :
    (LocalAuthProvider.authenticate P0 env2 (s0 (some emptyCache)) 0 "a@x.com" "p1").1
        = some (accessTok0, refreshTok0, "u1")
    ∧ (LocalAuthProvider.authenticate P0 env2 (s0 none) 0 "a@x.com" "p1").1
        = some (accessTok0, refreshTok0, "u1")
    ∧ (LocalAuthProvider.refresh_token P0 env2
        (LocalAuthProvider.authenticate P0 env2 (s0 (some emptyCache)) 0 "a@x.com" "p1").2
        2588400 refreshTok0).1.isSome = true
    ∧ (LocalAuthProvider.refresh_token P0 env2
        (LocalAuthProvider.authenticate P0 env2 (s0 none) 0 "a@x.com" "p1").2
        2588400 refreshTok0).1 = none := by
  decide

/-- After `revoke_refresh_token` on a hash, `get_refresh_token` for that hash
yields nothing at any instant: either the revocation marker is alive, or the
positive entry has been deleted. -/
theorem get_refresh_token_after_revoke (c : RedisSessionCache) (h : TokenHash)
    (now now2 : Int) :
    (c.revoke_refresh_token h now).get_refresh_token h now2 = none := by
  by_cases httl : 0 < entryTTL (c.refresh_tokens h) now
  · by_cases hm : now2 < now + entryTTL (c.refresh_tokens h) now
    · simp [RedisSessionCache.revoke_refresh_token, RedisSessionCache.get_refresh_token,
        RedisSessionCache.is_token_revoked, httl, entryLive, hm]
    · simp [RedisSessionCache.revoke_refresh_token, RedisSessionCache.get_refresh_token,
        RedisSessionCache.is_token_revoked, httl, entryLive, hm]
  · by_cases hm : (entryLive (c.revoked_tokens h) now2).isSome
    · simp [RedisSessionCache.revoke_refresh_token, RedisSessionCache.get_refresh_token,
        RedisSessionCache.is_token_revoked, httl, hm]
    · simp [RedisSessionCache.revoke_refresh_token, RedisSessionCache.get_refresh_token,
        RedisSessionCache.is_token_revoked, httl, hm, entryLive]

/-- After `TokenRepository.revoke_token` on a hash, the store-side validity
check of `refresh_token` fails for that hash: the record is either absent or
carries `revoked = true`. -/
theorem dbRefreshValid_after_revoke (env : Env) (db : TokenDB) (h : TokenHash) (now2 : Int) :
    LocalAuthProvider.dbRefreshValid env (TokenRepository.revoke_token db h) h now2 = false := by
  unfold LocalAuthProvider.dbRefreshValid TokenRepository.revoke_token
    TokenRepository.get_token_by_value
  cases hdb : db h with
  | none => simp [hdb]
  | some t => simp [hdb, AuthToken.is_valid]

/-- C1: for a refresh token signed with the provider's secret, `revoke_token`
returns `true`, and on the resulting state — at any later instant —
`refresh_token` returns `none` and a configured cache no longer serves a
positive `get_refresh_token` entry for its hash, even though the JWT signature
itself still verifies until the token's natural expiry. -/
theorem C1_revocation_propagates (P : LocalAuthProvider) (env : Env) (s : ProviderState)
    (now now2 : Int) (p : TokenPayload) (hp : p.type = .refresh) :
    (LocalAuthProvider.revoke_token P s now (.signed p P.jwt_handler.secret_key)).1 = true
    ∧ (LocalAuthProvider.refresh_token P env
        ((LocalAuthProvider.revoke_token P s now (.signed p P.jwt_handler.secret_key)).2)
        now2 (.signed p P.jwt_handler.secret_key)).1 = none
    ∧ (∀ c', ((LocalAuthProvider.revoke_token P s now (.signed p P.jwt_handler.secret_key)).2).cache = some c' →
        c'.get_refresh_token (JWTHandler.hash_token (.signed p P.jwt_handler.secret_key)) now2 = none)
    ∧ (now2 < p.exp →
        P.jwt_handler.verify_token now2 (.signed p P.jwt_handler.secret_key) = some p) := by
  refine ⟨rfl, ?_, ?_, ?_⟩
  · by_cases hv : now2 < p.exp
    · cases hc : s.cache with
      | none =>
        simp [LocalAuthProvider.revoke_token, LocalAuthProvider.refresh_token, hc,
          JWTHandler.verify_token, hv, hp, JWTHandler.hash_token, dbRefreshValid_after_revoke]
      | some c =>
        simp [LocalAuthProvider.revoke_token, LocalAuthProvider.refresh_token, hc,
          JWTHandler.verify_token, hv, hp, JWTHandler.hash_token, dbRefreshValid_after_revoke,
          get_refresh_token_after_revoke]
    · cases hc : s.cache with
      | none =>
        simp [LocalAuthProvider.revoke_token, LocalAuthProvider.refresh_token, hc,
          JWTHandler.verify_token, hv]
      | some c =>
        simp [LocalAuthProvider.revoke_token, LocalAuthProvider.refresh_token, hc,
          JWTHandler.verify_token, hv]
  · intro c' hc'
    cases hc : s.cache with
    | none => simp [LocalAuthProvider.revoke_token, hc] at hc'
    | some c =>
      simp [LocalAuthProvider.revoke_token, hc] at hc'
      subst hc'
      exact get_refresh_token_after_revoke c _ now now2
  · intro hv
    simp [JWTHandler.verify_token, hv]

/-- C1 witness: revocation propagation at the concrete world `s0` with a cache,
revoking at instant 10 and re-checking at instant 20. -/
theorem C1_revocation_propagates_witness :
    (LocalAuthProvider.revoke_token P0 (s0 (some emptyCache)) 10
        (.signed ⟨"u1", "a@x.com", 2592000, .refresh⟩ P0.jwt_handler.secret_key)).1 = true
    ∧ (LocalAuthProvider.refresh_token P0 env0
        ((LocalAuthProvider.revoke_token P0 (s0 (some emptyCache)) 10
          (.signed ⟨"u1", "a@x.com", 2592000, .refresh⟩ P0.jwt_handler.secret_key)).2)
        20 (.signed ⟨"u1", "a@x.com", 2592000, .refresh⟩ P0.jwt_handler.secret_key)).1 = none
    ∧ (∀ c', ((LocalAuthProvider.revoke_token P0 (s0 (some emptyCache)) 10
          (.signed ⟨"u1", "a@x.com", 2592000, .refresh⟩ P0.jwt_handler.secret_key)).2).cache = some c' →
        c'.get_refresh_token (JWTHandler.hash_token
          (.signed ⟨"u1", "a@x.com", 2592000, .refresh⟩ P0.jwt_handler.secret_key)) 20 = none)
    ∧ ((20 : Int) < (2592000 : Int) →
        P0.jwt_handler.verify_token 20
          (.signed ⟨"u1", "a@x.com", 2592000, .refresh⟩ P0.jwt_handler.secret_key)
          = some ⟨"u1", "a@x.com", 2592000, .refresh⟩) :=
  C1_revocation_propagates P0 env0 (s0 (some emptyCache)) 10 20
    ⟨"u1", "a@x.com", 2592000, .refresh⟩ (by decide)

/-- C6: a token whose payload carries `type = "access"` is rejected by
`refresh_token` in every state, and a token whose payload carries
`type = "refresh"` is rejected by the JWT-verification path of
`verify_access_token` (the path taken whenever the cache fast path misses,
in particular with no cache configured). -/
theorem C6_type_isolation (P : LocalAuthProvider) (env : Env) (s s2 : ProviderState)
    (now now2 : Int) (p q : TokenPayload) (sec sec2 : String)
    (hp : p.type = .access) (hq : q.type = .refresh)
    (hmiss : LocalAuthProvider.cachedAccessLookup s2
      (JWTHandler.hash_token (.signed q sec2)) now2 = none) :
    (LocalAuthProvider.refresh_token P env s now (.signed p sec)).1 = none
    ∧ (LocalAuthProvider.verify_access_token P s2 now2 (.signed q sec2)).1 = none := by
  constructor
  · by_cases hv : sec = P.jwt_handler.secret_key ∧ now < p.exp
    · simp [LocalAuthProvider.refresh_token, JWTHandler.verify_token, hv, hp]
    · simp [LocalAuthProvider.refresh_token, JWTHandler.verify_token, hv]
  · by_cases hv : sec2 = P.jwt_handler.secret_key ∧ now2 < q.exp
    · obtain ⟨hsec, hexp⟩ := hv
      subst hsec
      simp [LocalAuthProvider.verify_access_token, JWTHandler.verify_token, hexp, hq, hmiss]
    · simp [LocalAuthProvider.verify_access_token, JWTHandler.verify_token, hv, hmiss]

/-- C6 witness: an access-typed token is rejected by `refresh_token` and a
refresh-typed token by the cache-less `verify_access_token` at instant 0. -/
theorem C6_type_isolation_witness :
    (LocalAuthProvider.refresh_token P0 env0 (s0 none) 0
        (.signed ⟨"u1", "a@x.com", 900, .access⟩ "s3cr3t")).1 = none
    ∧ (LocalAuthProvider.verify_access_token P0 (s0 none) 0
        (.signed ⟨"u1", "a@x.com", 2592000, .refresh⟩ "s3cr3t")).1 = none :=
  C6_type_isolation P0 env0 (s0 none) (s0 none) 0 0
    ⟨"u1", "a@x.com", 900, .access⟩ ⟨"u1", "a@x.com", 2592000, .refresh⟩
    "s3cr3t" "s3cr3t" (by decide) (by decide) (by decide)

/-- C5: whenever `authenticate` succeeds with `(access, refresh, user_id)`, a
subsequent `verify_access_token(access)` on the resulting state — at any
instant before the access token's expiry — succeeds, and the returned claims
carry `sub = user_id` (via the cache fast path or the JWT path alike). -/
theorem C5_round_trip (P : LocalAuthProvider) (env : Env) (s : ProviderState)
    (now t : Int) (email password : String) (a r : Token) (uid : String)
    (hs : (LocalAuthProvider.authenticate P env s now email password).1 = some (a, r, uid))
    (ht : t < now + P.access_token_expires) :
    ∃ cl, (LocalAuthProvider.verify_access_token P
        ((LocalAuthProvider.authenticate P env s now email password).2) t a).1 = some cl
      ∧ cl.sub = uid := by
  cases hcred : s.credentials email with
  | none => simp [LocalAuthProvider.authenticate, hcred] at hs
  | some credential =>
    by_cases hpw : PasswordHasher.verify_password password credential.password_hash
    · cases huser : s.users credential.user_id with
      | none => simp [LocalAuthProvider.authenticate, hcred, hpw, huser] at hs
      | some ui =>
        cases hc : s.cache with
        | none =>
          simp [LocalAuthProvider.authenticate, hcred, hpw, huser, hc] at hs ⊢
          obtain ⟨ha, hr, huid⟩ := hs
          subst ha hr huid
          simp [LocalAuthProvider.verify_access_token, LocalAuthProvider.cachedAccessLookup,
            JWTHandler.create_access_token, JWTHandler.verify_token, ht, Claims.ofPayload]
        | some c =>
          simp [LocalAuthProvider.authenticate, hcred, hpw, huser, hc] at hs ⊢
          obtain ⟨ha, hr, huid⟩ := hs
          subst ha hr huid
          cases hmark : c.revoked_tokens (Token.signed
              ⟨credential.user_id, ui.email, now + P.access_token_expires, .access⟩
              P.jwt_handler.secret_key) with
          | some e =>
            by_cases hml : t < e.expires_at
            · simp [LocalAuthProvider.verify_access_token, LocalAuthProvider.cachedAccessLookup,
                RedisSessionCache.get_access_token, RedisSessionCache.is_token_revoked,
                RedisSessionCache.set_user_session, RedisSessionCache.set_refresh_token,
                hmark, hml, entryLive, JWTHandler.verify_token, JWTHandler.create_access_token,
                ht, Claims.ofPayload, JWTHandler.hash_token]
            · simp [LocalAuthProvider.verify_access_token, LocalAuthProvider.cachedAccessLookup,
                RedisSessionCache.get_access_token, RedisSessionCache.is_token_revoked,
                RedisSessionCache.set_user_session, RedisSessionCache.set_refresh_token,
                hmark, hml, entryLive, ht, Claims.ofCached, JWTHandler.create_access_token,
                JWTHandler.hash_token]
          | none =>
            simp [LocalAuthProvider.verify_access_token, LocalAuthProvider.cachedAccessLookup,
              RedisSessionCache.get_access_token, RedisSessionCache.is_token_revoked,
              RedisSessionCache.set_user_session, RedisSessionCache.set_refresh_token,
              hmark, entryLive, ht, Claims.ofCached, JWTHandler.create_access_token,
              JWTHandler.hash_token]
    · simp [LocalAuthProvider.authenticate, hcred, hpw] at hs

/-- C5 witness: the round trip on the concrete login at instant 0, verified at
instant 10. -/
theorem C5_round_trip_witness :
    ∃ cl, (LocalAuthProvider.verify_access_token P0
        ((LocalAuthProvider.authenticate P0 env0 (s0 (some emptyCache)) 0 "a@x.com" "p1").2)
        10 accessTok0).1 = some cl
      ∧ cl.sub = "u1" :=
  C5_round_trip P0 env0 (s0 (some emptyCache)) 0 10 "a@x.com" "p1"
    accessTok0 refreshTok0 "u1" (by decide) (by decide)

/-- After `revoke_refresh_token` on hash `h`, `get_access_token` for any other
hash `h2 ≠ h` is unchanged: the revocation touches only `h`'s keys. -/
theorem get_access_token_after_revoke_other (c : RedisSessionCache) (h h2 : TokenHash)
    (now now2 : Int) (hne : h2 ≠ h) :
    (c.revoke_refresh_token h now).get_access_token h2 now2 = c.get_access_token h2 now2 := by
  by_cases httl : 0 < entryTTL (c.refresh_tokens h) now
  · simp [RedisSessionCache.revoke_refresh_token, RedisSessionCache.get_access_token,
      RedisSessionCache.is_token_revoked, httl, hne]
  · simp [RedisSessionCache.revoke_refresh_token, RedisSessionCache.get_access_token,
      RedisSessionCache.is_token_revoked, httl, hne]

/-- C10: revoking a refresh token leaves `verify_access_token` of any
differently-typed (hence distinct) access token unchanged — whatever claims it
returned before the revocation, it still returns afterwards, until the access
token's own expiry ends its validity. -/
theorem C10_revoke_refresh_preserves_access (P : LocalAuthProvider) (s : ProviderState)
    (now now2 : Int) (p q : TokenPayload) (seca secr : String) (cl : Claims)
    (hp : p.type = .access) (hq : q.type = .refresh)
    (hv : (LocalAuthProvider.verify_access_token P s now2 (.signed p seca)).1 = some cl) :
    (LocalAuthProvider.verify_access_token P
        ((LocalAuthProvider.revoke_token P s now (.signed q secr)).2) now2
        (.signed p seca)).1 = some cl := by
  have hne : (Token.signed p seca : TokenHash) ≠ Token.signed q secr := by
    intro h
    cases h
    rw [hp] at hq
    exact absurd hq (by decide)
  have hlook : LocalAuthProvider.cachedAccessLookup
      ((LocalAuthProvider.revoke_token P s now (.signed q secr)).2)
      (JWTHandler.hash_token (.signed p seca)) now2
      = LocalAuthProvider.cachedAccessLookup s (JWTHandler.hash_token (.signed p seca)) now2 := by
    cases hc : s.cache with
    | none => simp [LocalAuthProvider.revoke_token, LocalAuthProvider.cachedAccessLookup, hc]
    | some c =>
      simp [LocalAuthProvider.revoke_token, LocalAuthProvider.cachedAccessLookup, hc,
        JWTHandler.hash_token]
      exact get_access_token_after_revoke_other c _ _ now now2 hne
  rw [LocalAuthProvider.verify_access_token] at hv ⊢
  rw [hlook]
  cases hl : LocalAuthProvider.cachedAccessLookup s
      (JWTHandler.hash_token (.signed p seca)) now2 with
  | some d => rw [hl] at hv; simpa using hv
  | none =>
    rw [hl] at hv
    cases hvt : P.jwt_handler.verify_token now2 (.signed p seca) with
    | none => rw [hvt] at hv; simp at hv
    | some payload =>
      rw [hvt] at hv
      by_cases hty : payload.type = TokenType.access
      · simp [hty] at hv ⊢
        exact hv
      · simp [hty] at hv

/-- C10 witness: after the concrete login, revoking the refresh token at
instant 5 leaves `verify_access_token` of the issued access token at instant 10
returning the same cached claims as before. -/
theorem C10_revoke_refresh_preserves_access_witness :
    (LocalAuthProvider.verify_access_token P0
        ((LocalAuthProvider.revoke_token P0
          ((LocalAuthProvider.authenticate P0 env0 (s0 (some emptyCache)) 0 "a@x.com" "p1").2)
          5 (.signed ⟨"u1", "a@x.com", 2592000, .refresh⟩ "s3cr3t")).2) 10
        (.signed ⟨"u1", "a@x.com", 900, .access⟩ "s3cr3t")).1
      = some ⟨"u1", some "a@x.com", none, none⟩ :=
  C10_revoke_refresh_preserves_access P0
    ((LocalAuthProvider.authenticate P0 env0 (s0 (some emptyCache)) 0 "a@x.com" "p1").2)
    5 10 ⟨"u1", "a@x.com", 900, .access⟩ ⟨"u1", "a@x.com", 2592000, .refresh⟩
    "s3cr3t" "s3cr3t" ⟨"u1", some "a@x.com", none, none⟩ rfl rfl (by decide)
